import Mathlib

/-!
Shallow embedding of `godel_surface_detection/src/services/surface_detection_service.cpp`:
the `SurfaceDetectionService` class, its three service callbacks and the
`run_robot_scan` / `find_surfaces` sub-procedures, as pure state-transition
functions over an explicit service state.  External collaborators (the robot
scan stage, the detection algorithm, the interactive surface server) are
modelled through their outcomes, supplied as an environment value per call.
-/

namespace Godel

/-- Robot-scan parameter group (`godel_msgs::RobotScanParameters`).  The service
treats the group as an opaque whole value: it is only copied wholesale between
the request, the current group, the default group and the response, so it is
modelled as a single opaque value. -/
structure RobotScanParameters where
  val : Nat
deriving DecidableEq, Repr

/-- Surface-detection parameter group (`godel_msgs::SurfaceDetectionParameters`),
likewise copied only wholesale by the service, hence opaque. -/
structure SurfaceDetectionParameters where
  val : Nat
deriving DecidableEq, Repr

/-- Blending-plan parameter group (`godel_msgs::BlendingPlanParameters`); the
nine named fields follow `load_blending_parameters` in the source.  The values
are only loaded and copied, never computed with, so each field is an opaque
numeric value. -/
structure BlendingPlanParameters where
  tool_radius : Nat
  margin : Nat
  overlap : Nat
  approach_spd : Nat
  blending_spd : Nat
  retract_spd : Nat
  traverse_spd : Nat
  discretization : Nat
  safe_traverse_height : Nat
deriving DecidableEq, Repr

/-- A `visualization_msgs::Marker`, opaque to the service. -/
abbrev Marker := Nat

/-- `visualization_msgs::MarkerArray`. -/
structure MarkerArray where
  markers : List Marker
deriving DecidableEq, Repr

/-- `sensor_msgs::PointCloud2`; only its data buffer is ever inspected (for
emptiness, in the periodic-publish loop), so the payload is opaque. -/
structure PointCloud2 where
  data : List Nat
deriving DecidableEq, Repr

/-- A robot pose, opaque to the service. -/
abbrev Pose := Nat

/-- A `pcl::PolygonMesh`, opaque to the service. -/
abbrev Mesh := Nat

/-- `godel_msgs::SurfaceDetection::Response`.  The message definition is not
under `src/`; the fields are exactly those the source reads or writes, with the
shape given by spec section 6 (surfacesFound, surfaces, robotScan,
surfaceDetection, robotScanPoses). -/
structure SurfaceDetectionResponse where
  surfaces_found : Bool
  surfaces : MarkerArray
  robot_scan : RobotScanParameters
  surface_detection : SurfaceDetectionParameters
  robot_scan_poses : List Pose
deriving DecidableEq, Repr

/-- ROS message default construction: false / empty / zero-valued fields. -/
def SurfaceDetectionResponse.init : SurfaceDetectionResponse :=
  { surfaces_found := false
    surfaces := ⟨[]⟩
    robot_scan := ⟨0⟩
    surface_detection := ⟨0⟩
    robot_scan_poses := [] }

/-- The action codes of `godel_msgs::SurfaceDetection::Request` handled by the
switch in `surface_detection_server_callback`. -/
inductive SurfaceDetectionAction
  | GET_CURRENT_PARAMETERS
  | GET_DEFAULT_PARAMETERS
  | PUBLISH_SCAN_PATH
  | SCAN_AND_FIND_ONLY
  | SCAN_FIND_AND_RETURN
  | FIND_ONLY
  | FIND_AND_RETURN
  | RETURN_LATEST_RESULTS
deriving DecidableEq, Repr

/-- `godel_msgs::SurfaceDetection::Request`: the fields the source reads. -/
structure SurfaceDetectionRequest where
  action : SurfaceDetectionAction
  use_default_parameters : Bool
  robot_scan : RobotScanParameters
  surface_detection : SurfaceDetectionParameters
deriving DecidableEq, Repr

/-- Modelled from the spec: one entry of SelectionStage's SurfaceSet (spec
section 3): a mesh, a unique identifier and boolean selected/visible flags.
The `InteractiveSurfaceServer` implementation is not under `src/`; identifiers
are assigned on registration (here: the insertion index) and the initial flag
values are unspecified — no claim below depends on them. -/
structure SurfaceEntry where
  mesh : Mesh
  id : Nat
  selected : Bool
  visible : Bool
deriving DecidableEq, Repr

/-- Modelled from the spec: the SelectionStage state — the ordered SurfaceSet
it owns (spec sections 2 and 3). -/
structure InteractiveSurfaceServer where
  surfaces : List SurfaceEntry
deriving DecidableEq, Repr

/-- Modelled from the spec: `remove_all_surfaces` drops all prior surfaces. -/
def InteractiveSurfaceServer.remove_all_surfaces
    (_srv : InteractiveSurfaceServer) : InteractiveSurfaceServer :=
  ⟨[]⟩

/-- Modelled from the spec: `add_surface` registers one newly found surface. -/
def InteractiveSurfaceServer.add_surface (srv : InteractiveSurfaceServer)
    (m : Mesh) : InteractiveSurfaceServer :=
  ⟨srv.surfaces ++ [⟨m, srv.surfaces.length, false, true⟩]⟩

/-- Modelled from the spec: `set_selection_flag` sets the selected flag of the
surface with the given identifier. -/
def InteractiveSurfaceServer.set_selection_flag (srv : InteractiveSurfaceServer)
    (i : Nat) (flag : Bool) : InteractiveSurfaceServer :=
  ⟨srv.surfaces.map fun e => if e.id = i then { e with selected := flag } else e⟩

/-- Modelled from the spec: `select_all` sets every selected flag. -/
def InteractiveSurfaceServer.select_all (srv : InteractiveSurfaceServer)
    (flag : Bool) : InteractiveSurfaceServer :=
  ⟨srv.surfaces.map fun e => { e with selected := flag }⟩

/-- Modelled from the spec: `show_all` sets every visible flag. -/
def InteractiveSurfaceServer.show_all (srv : InteractiveSurfaceServer)
    (flag : Bool) : InteractiveSurfaceServer :=
  ⟨srv.surfaces.map fun e => { e with visible := flag }⟩

/-- The mutable fields of `SurfaceDetectionService` that the claims concern:
the three current parameter groups, the three default groups snapshotted at
init, the result cache, the region-cloud snapshot, the detection stage's
accumulated raw data, and the SelectionStage state. -/
structure ServiceState where
  robot_scan_params : RobotScanParameters
  surface_detection_params : SurfaceDetectionParameters
  blending_plan_params : BlendingPlanParameters
  default_robot_scan_params : RobotScanParameters
  default_surf_detection_params : SurfaceDetectionParameters
  default_blending_plan_params : BlendingPlanParameters
  latest_surface_detection_results : SurfaceDetectionResponse
  region_cloud_msg : PointCloud2
  accumulated_clouds : List Nat
  surface_server : InteractiveSurfaceServer
deriving DecidableEq, Repr

/-- Outcome of the external DetectionStage collaborator for one
`find_surfaces` invocation: whether `surface_detection_.find_surfaces()`
succeeds and, on success, the meshes, surface markers, region-colored cloud
and the latest scan poses the collaborators yield. -/
structure DetectionEnv where
  find_succeeds : Bool
  meshes : List Mesh
  markers : List Marker
  region_cloud : PointCloud2
  scan_poses : List Pose
deriving DecidableEq, Repr

/-- Outcome of the external ScanStage collaborator: the number of scan poses
reached by `robot_scan_.scan(false)`, plus the detection outcome should Find
run afterwards. -/
structure ScanEnv where
  scans_completed : Int
  detection : DetectionEnv
deriving DecidableEq, Repr

/-- Observable invocations of external collaborators, logged in order. -/
inductive Event
  | publishScanPoses
  | clearResults
  | robotScan
  | findSurfaces
deriving DecidableEq, Repr

/-- Result of one `run_robot_scan` / `find_surfaces` sub-procedure: the C++
bool return, the mutated service state, the output-argument marker array, and
the trace of collaborator invocations. -/
structure SubResult where
  succeeded : Bool
  state : ServiceState
  surfaces : MarkerArray
  events : List Event
deriving DecidableEq, Repr

/-- `SurfaceDetectionService::find_surfaces` (source lines 195-232).  On
success: remove all surfaces from the server, add each detected mesh, prepend
the detected markers to the output argument, overwrite the cached result's
surface_detection / surfaces_found / surfaces / robot_scan_poses fields, and
replace the region cloud with the detection's region-colored cloud.  On
failure: reset the region cloud to an empty `PointCloud2` and return false. -/
def find_surfaces (env : DetectionEnv) (s : ServiceState)
    (surfaces : MarkerArray) : SubResult :=
  if env.find_succeeds then
    let srv := s.surface_server.remove_all_surfaces
    let srv := env.meshes.foldl (fun a m => a.add_surface m) srv
    let surfaces1 : MarkerArray := ⟨env.markers ++ surfaces.markers⟩
    let latest :=
      { s.latest_surface_detection_results with
        surface_detection := s.surface_detection_params
        surfaces_found := true
        surfaces := surfaces1
        robot_scan_poses := env.scan_poses }
    { succeeded := true
      state :=
        { s with
          surface_server := srv
          latest_surface_detection_results := latest
          region_cloud_msg := env.region_cloud }
      surfaces := surfaces1
      events := [Event.findSurfaces] }
  else
    { succeeded := false
      state := { s with region_cloud_msg := ⟨[]⟩ }
      surfaces := surfaces
      events := [Event.findSurfaces] }

/-- `SurfaceDetectionService::run_robot_scan` (source lines 167-193): publish
the scan-path preview, clear the detection stage's accumulated results, run
the scan; if more than zero scan poses were reached, run `find_surfaces`,
otherwise fail without invoking it. -/
def run_robot_scan (env : ScanEnv) (s : ServiceState)
    (surfaces : MarkerArray) : SubResult :=
  let s1 := { s with accumulated_clouds := [] }
  let pre : List Event := [Event.publishScanPoses, Event.clearResults, Event.robotScan]
  if env.scans_completed > 0 then
    let r := find_surfaces env.detection s1 surfaces
    { r with events := pre ++ r.events }
  else
    { succeeded := false, state := s1, surfaces := surfaces, events := pre }

/-- Result of one handled service request: the mutated state, the response,
the C++ bool return of the callback, and the collaborator-invocation trace. -/
structure HandleResult where
  state : ServiceState
  response : SurfaceDetectionResponse
  retval : Bool
  events : List Event
deriving DecidableEq, Repr

/-- `SurfaceDetectionService::surface_detection_server_callback` (source lines
234-339), as a pure state transition.  The response starts default-constructed
with `surfaces_found := false` and an empty marker array, then the switch on
the action runs exactly as in the source, including the parameter-resolution
asymmetry (each branch assigns only the groups it names) and the
`res.surfaces.markers.clear()` in the two ONLY actions. -/
def surface_detection_server_callback (env : ScanEnv) (s : ServiceState)
    (req : SurfaceDetectionRequest) : HandleResult :=
  let res := { SurfaceDetectionResponse.init with surfaces_found := false, surfaces := ⟨[]⟩ }
  match req.action with
  | .GET_CURRENT_PARAMETERS =>
      { state := s
        response :=
          { res with
            robot_scan := s.robot_scan_params
            surface_detection := s.surface_detection_params }
        retval := true
        events := [] }
  | .GET_DEFAULT_PARAMETERS =>
      { state := s
        response :=
          { res with
            robot_scan := s.default_robot_scan_params
            surface_detection := s.default_surf_detection_params }
        retval := true
        events := [] }
  | .PUBLISH_SCAN_PATH =>
      let s1 :=
        if req.use_default_parameters then
          { s with robot_scan_params := s.default_robot_scan_params }
        else
          { s with robot_scan_params := req.robot_scan }
      { state := s1, response := res, retval := true, events := [Event.publishScanPoses] }
  | .SCAN_AND_FIND_ONLY =>
      let s1 :=
        if req.use_default_parameters then
          { s with
            robot_scan_params := s.default_robot_scan_params
            surface_detection_params := s.default_surf_detection_params }
        else
          { s with
            robot_scan_params := req.robot_scan
            surface_detection_params := req.surface_detection }
      let r := run_robot_scan env s1 res.surfaces
      let res1 := { res with surfaces_found := r.succeeded, surfaces := r.surfaces }
      let res2 := { res1 with surfaces := ⟨[]⟩ }
      { state := r.state, response := res2, retval := true, events := r.events }
  | .SCAN_FIND_AND_RETURN =>
      let s1 :=
        if req.use_default_parameters then
          { s with
            robot_scan_params := s.default_robot_scan_params
            surface_detection_params := s.default_surf_detection_params }
        else
          { s with
            robot_scan_params := req.robot_scan
            surface_detection_params := req.surface_detection }
      let r := run_robot_scan env s1 res.surfaces
      let res1 := { res with surfaces_found := r.succeeded, surfaces := r.surfaces }
      { state := r.state, response := res1, retval := true, events := r.events }
  | .FIND_ONLY =>
      let s1 :=
        if req.use_default_parameters then
          { s with surface_detection_params := s.default_surf_detection_params }
        else
          { s with surface_detection_params := req.surface_detection }
      let r := find_surfaces env.detection s1 res.surfaces
      let res1 := { res with surfaces_found := r.succeeded, surfaces := r.surfaces }
      let res2 := { res1 with surfaces := ⟨[]⟩ }
      { state := r.state, response := res2, retval := true, events := r.events }
  | .FIND_AND_RETURN =>
      let s1 :=
        if req.use_default_parameters then
          { s with surface_detection_params := s.default_surf_detection_params }
        else
          { s with surface_detection_params := req.surface_detection }
      let r := find_surfaces env.detection s1 res.surfaces
      let res1 := { res with surfaces_found := r.succeeded, surfaces := r.surfaces }
      { state := r.state, response := res1, retval := true, events := r.events }
  | .RETURN_LATEST_RESULTS =>
      { state := s
        response := s.latest_surface_detection_results
        retval := true
        events := [] }

/-- The action codes of `godel_msgs::SelectSurface::Request`. -/
inductive SelectSurfaceAction
  | SELECT
  | DESELECT
  | SELECT_ALL
  | DESELECT_ALL
  | HIDE_ALL
  | SHOW_ALL
deriving DecidableEq, Repr

/-- `godel_msgs::SelectSurface::Request`: the fields the source reads. -/
structure SelectSurfaceRequest where
  action : SelectSurfaceAction
  select_surfaces : List Nat
deriving DecidableEq, Repr

/-- The for-loop in the SELECT and DESELECT branches of
`select_surface_server_callback`, modelled step for step:
`for (int i = 0; req.select_surfaces.size(); i++)`.  The loop condition is the
list size itself — truthy whenever the list is non-empty — and never mentions
`i`, so each pass applies `set_selection_flag` to the element at index `i` (an
out-of-bounds read once `i` reaches the size, modelled as a default read) and
the loop exits only when the list is empty.  `fuel` bounds how many iterations
are unfolded; `none` means the bound was reached with the loop still running. -/
def select_flag_loop (flag : Bool) (targets : List Nat) :
    Nat → Nat → InteractiveSurfaceServer → Option InteractiveSurfaceServer
  | 0, _, _ => none
  | fuel + 1, i, srv =>
      if targets.length ≠ 0 then
        select_flag_loop flag targets fuel (i + 1)
          (srv.set_selection_flag (targets.getD i 0) flag)
      else
        some srv

/-- `SurfaceDetectionService::select_surface_server_callback` (source lines
341-382).  `none` means the call never returns within the given iteration
bound (the SELECT/DESELECT loop is unbounded on a non-empty list). -/
def select_surface_server_callback (fuel : Nat) (s : ServiceState)
    (req : SelectSurfaceRequest) : Option (ServiceState × Bool) :=
  match req.action with
  | .SELECT =>
      (select_flag_loop true req.select_surfaces fuel 0 s.surface_server).map
        fun srv => ({ s with surface_server := srv }, true)
  | .DESELECT =>
      (select_flag_loop false req.select_surfaces fuel 0 s.surface_server).map
        fun srv => ({ s with surface_server := srv }, true)
  | .SELECT_ALL =>
      some ({ s with surface_server := s.surface_server.select_all true }, true)
  | .DESELECT_ALL =>
      some ({ s with surface_server := s.surface_server.select_all false }, true)
  | .HIDE_ALL =>
      some ({ s with surface_server := s.surface_server.show_all false }, true)
  | .SHOW_ALL =>
      some ({ s with surface_server := s.surface_server.show_all true }, true)

/-- The action codes of `godel_msgs::SurfaceBlendingParameters::Request`. -/
inductive SurfaceBlendingParametersAction
  | GET_CURRENT_PARAMETERS
  | GET_DEFAULT_PARAMETERS
deriving DecidableEq, Repr

/-- `godel_msgs::SurfaceBlendingParameters::Response`. -/
structure SurfaceBlendingParametersResponse where
  surface_detection : SurfaceDetectionParameters
  robot_scan : RobotScanParameters
  blending_plan : BlendingPlanParameters
deriving DecidableEq, Repr

/-- Default-constructed blending-parameters response (zero-valued fields). -/
def SurfaceBlendingParametersResponse.init : SurfaceBlendingParametersResponse :=
  { surface_detection := ⟨0⟩
    robot_scan := ⟨0⟩
    blending_plan := ⟨0, 0, 0, 0, 0, 0, 0, 0, 0⟩ }

/-- `SurfaceDetectionService::surface_blend_parameters_server_callback`
(source lines 391-412): read-only dispatch over current or default groups. -/
def surface_blend_parameters_server_callback (s : ServiceState)
    (action : SurfaceBlendingParametersAction) :
    ServiceState × SurfaceBlendingParametersResponse × Bool :=
  match action with
  | .GET_CURRENT_PARAMETERS =>
      (s,
        { SurfaceBlendingParametersResponse.init with
          surface_detection := s.surface_detection_params
          robot_scan := s.robot_scan_params
          blending_plan := s.blending_plan_params },
        true)
  | .GET_DEFAULT_PARAMETERS =>
      (s,
        { SurfaceBlendingParametersResponse.init with
          surface_detection := s.default_surf_detection_params
          robot_scan := s.default_robot_scan_params
          blending_plan := s.default_blending_plan_params },
        true)

/-- The parameter-snapshot part of `SurfaceDetectionService::init` (source
lines 55-123): after the stages load their parameter groups from
configuration, the three default groups are snapshotted from the just-loaded
current groups (lines 70-73); the result cache and region cloud start
default-constructed (empty).  The loaded values are inputs here; the ROS
plumbing is external. -/
def init_state (loaded_scan : RobotScanParameters)
    (loaded_detection : SurfaceDetectionParameters)
    (loaded_blending : BlendingPlanParameters) : ServiceState :=
  { robot_scan_params := loaded_scan
    surface_detection_params := loaded_detection
    blending_plan_params := loaded_blending
    default_robot_scan_params := loaded_scan
    default_surf_detection_params := loaded_detection
    default_blending_plan_params := loaded_blending
    latest_surface_detection_results := SurfaceDetectionResponse.init
    region_cloud_msg := ⟨[]⟩
    accumulated_clouds := []
    surface_server := ⟨[]⟩ }

/-- One inbound service call, for reasoning over call sequences: a
surface-detection request (with its collaborator outcomes), a
blending-parameters request, or a surface-selection request (with an
iteration bound for its loop). -/
inductive ServiceCall
  | detect (env : ScanEnv) (req : SurfaceDetectionRequest)
  | blend (action : SurfaceBlendingParametersAction)
  | select (fuel : Nat) (req : SelectSurfaceRequest)
deriving Repr

/-- Dispatch one service call; `none` means the call never returned. -/
def stepCall : ServiceCall → ServiceState → Option ServiceState
  | .detect env req, s => some (surface_detection_server_callback env s req).state
  | .blend action, s => some (surface_blend_parameters_server_callback s action).1
  | .select fuel req, s => (select_surface_server_callback fuel s req).map Prod.fst

/-- Run a sequence of service calls; `none` as soon as one never returns. -/
def runCalls : List ServiceCall → ServiceState → Option ServiceState
  | [], s => some s
  | c :: cs, s => (stepCall c s).bind (runCalls cs)

/-- The actions whose switch branch assigns the scan parameter group
(source lines 253-300): PUBLISH_SCAN_PATH and the two SCAN actions. -/
def touches_scan : SurfaceDetectionAction → Bool
  | .PUBLISH_SCAN_PATH | .SCAN_AND_FIND_ONLY | .SCAN_FIND_AND_RETURN => true
  | _ => false

/-- The actions whose switch branch assigns the detection parameter group
(source lines 269-329): the two SCAN actions and the two FIND actions. -/
def touches_detection : SurfaceDetectionAction → Bool
  | .SCAN_AND_FIND_ONLY | .SCAN_FIND_AND_RETURN | .FIND_ONLY | .FIND_AND_RETURN => true
  | _ => false

/-- Neither branch of `find_surfaces` writes any current or default parameter
group. -/
theorem find_surfaces_preserves_params (env : DetectionEnv) (s : ServiceState)
    (surfaces : MarkerArray) :
    (find_surfaces env s surfaces).state.robot_scan_params = s.robot_scan_params ∧
    (find_surfaces env s surfaces).state.surface_detection_params = s.surface_detection_params ∧
    (find_surfaces env s surfaces).state.blending_plan_params = s.blending_plan_params ∧
    (find_surfaces env s surfaces).state.default_robot_scan_params
      = s.default_robot_scan_params ∧
    (find_surfaces env s surfaces).state.default_surf_detection_params
      = s.default_surf_detection_params ∧
    (find_surfaces env s surfaces).state.default_blending_plan_params
      = s.default_blending_plan_params := by
  unfold find_surfaces
  split <;> simp

/-- Neither branch of `run_robot_scan` writes any current or default parameter
group. -/
theorem run_robot_scan_preserves_params (env : ScanEnv) (s : ServiceState)
    (surfaces : MarkerArray) :
    (run_robot_scan env s surfaces).state.robot_scan_params = s.robot_scan_params ∧
    (run_robot_scan env s surfaces).state.surface_detection_params = s.surface_detection_params ∧
    (run_robot_scan env s surfaces).state.blending_plan_params = s.blending_plan_params ∧
    (run_robot_scan env s surfaces).state.default_robot_scan_params
      = s.default_robot_scan_params ∧
    (run_robot_scan env s surfaces).state.default_surf_detection_params
      = s.default_surf_detection_params ∧
    (run_robot_scan env s surfaces).state.default_blending_plan_params
      = s.default_blending_plan_params := by
  unfold run_robot_scan
  split
  · simpa using find_surfaces_preserves_params env.detection
      { s with accumulated_clouds := [] } surfaces
  · simp

/-- Claim C1: parameter resolution is asymmetric per action.  After
`surface_detection_server_callback` returns, the blending-plan group is always
untouched; the scan group equals the default (under use_default_parameters)
or the caller override exactly when the action touches scan, and keeps its
prior current value otherwise; likewise for the detection group. -/
theorem C1_param_resolution_asymmetric (env : ScanEnv) (s : ServiceState)
    (req : SurfaceDetectionRequest) :
    ((surface_detection_server_callback env s req).state.blending_plan_params
      = s.blending_plan_params) ∧
    ((surface_detection_server_callback env s req).state.robot_scan_params
      = if touches_scan req.action then
          (if req.use_default_parameters then s.default_robot_scan_params
           else req.robot_scan)
        else s.robot_scan_params) ∧
    ((surface_detection_server_callback env s req).state.surface_detection_params
      = if touches_detection req.action then
          (if req.use_default_parameters then s.default_surf_detection_params
           else req.surface_detection)
        else s.surface_detection_params) := by
  obtain ⟨a, u, rs, sd⟩ := req
  cases a <;> cases u <;>
    simp [surface_detection_server_callback, touches_scan, touches_detection,
      run_robot_scan, find_surfaces] <;>
    split_ifs <;> simp

/-- A concrete blending-plan parameter value for concrete evaluations. -/
def bp1 : BlendingPlanParameters := ⟨1, 2, 3, 4, 5, 6, 7, 8, 9⟩

/-- A concrete post-init service state for concrete evaluations. -/
def sampleState : ServiceState := init_state ⟨1⟩ ⟨2⟩ bp1

/-- A concrete detection outcome where detection succeeds. -/
def sampleDetectionOk : DetectionEnv :=
  { find_succeeds := true
    meshes := [10, 11]
    markers := [20, 21, 22]
    region_cloud := ⟨[30]⟩
    scan_poses := [40, 41] }

/-- A concrete detection outcome where detection fails. -/
def sampleDetectionFail : DetectionEnv :=
  { find_succeeds := false, meshes := [], markers := [], region_cloud := ⟨[]⟩, scan_poses := [] }

/-- A concrete scan outcome reaching zero poses. -/
def sampleScanZero : ScanEnv := { scans_completed := 0, detection := sampleDetectionOk }

/-- A concrete scan outcome reaching three poses, with detection succeeding. -/
def sampleScanOk : ScanEnv := { scans_completed := 3, detection := sampleDetectionOk }

/-- A concrete scan outcome reaching three poses, with detection failing. -/
def sampleScanFindFail : ScanEnv := { scans_completed := 3, detection := sampleDetectionFail }

/-- A concrete SCAN_AND_FIND_ONLY request. -/
def reqScanFindOnly : SurfaceDetectionRequest :=
  { action := .SCAN_AND_FIND_ONLY
    use_default_parameters := true
    robot_scan := ⟨0⟩
    surface_detection := ⟨0⟩ }

/-- A concrete SCAN_FIND_AND_RETURN request. -/
def reqScanFindReturn : SurfaceDetectionRequest :=
  { action := .SCAN_FIND_AND_RETURN
    use_default_parameters := true
    robot_scan := ⟨0⟩
    surface_detection := ⟨0⟩ }

/-- A concrete FIND_ONLY request supplying an override. -/
def reqFindOnly : SurfaceDetectionRequest :=
  { action := .FIND_ONLY
    use_default_parameters := false
    robot_scan := ⟨7⟩
    surface_detection := ⟨8⟩ }

/-- A concrete FIND_AND_RETURN request supplying an override. -/
def reqFindReturn : SurfaceDetectionRequest :=
  { action := .FIND_AND_RETURN
    use_default_parameters := false
    robot_scan := ⟨7⟩
    surface_detection := ⟨8⟩ }

/-- A concrete RETURN_LATEST_RESULTS request. -/
def reqReturnLatest : SurfaceDetectionRequest :=
  { action := .RETURN_LATEST_RESULTS
    use_default_parameters := true
    robot_scan := ⟨0⟩
    surface_detection := ⟨0⟩ }

/-- Claim C2: for the two scan-bearing actions, a scan that reaches zero poses
means `find_surfaces` is never invoked, the cached result is left equal to its
pre-call value, and the response reports surfaces_found = false. -/
theorem C2_scan_zero_poses_skips_find (env : ScanEnv) (s : ServiceState)
    (req : SurfaceDetectionRequest)
    (ha : req.action = SurfaceDetectionAction.SCAN_AND_FIND_ONLY ∨
          req.action = SurfaceDetectionAction.SCAN_FIND_AND_RETURN)
    (h0 : env.scans_completed = 0) :
    Event.findSurfaces ∉ (surface_detection_server_callback env s req).events ∧
    (surface_detection_server_callback env s req).state.latest_surface_detection_results
      = s.latest_surface_detection_results ∧
    (surface_detection_server_callback env s req).response.surfaces_found = false := by
  obtain ⟨a, u, rs, sd⟩ := req
  rcases ha with h | h <;> simp only at h <;> subst h <;> cases u <;>
    simp [surface_detection_server_callback, run_robot_scan, h0]

/-- Concrete instance of C2: SCAN_AND_FIND_ONLY on a zero-pose scan. -/
theorem C2_scan_zero_poses_skips_find_witness :
    sampleScanZero.scans_completed = 0 ∧
    (Event.findSurfaces
        ∉ (surface_detection_server_callback sampleScanZero sampleState reqScanFindOnly).events ∧
      (surface_detection_server_callback sampleScanZero sampleState
            reqScanFindOnly).state.latest_surface_detection_results
        = sampleState.latest_surface_detection_results ∧
      (surface_detection_server_callback sampleScanZero sampleState
            reqScanFindOnly).response.surfaces_found = false) :=
  ⟨rfl, C2_scan_zero_poses_skips_find sampleScanZero sampleState reqScanFindOnly (Or.inl rfl) rfl⟩

/-- Claim C3: whenever an action invokes `find_surfaces` and detection fails,
the region-cloud snapshot becomes the empty cloud, the cached result is left
equal to its pre-call value, and the response reports surfaces_found =
false. -/
theorem C3_find_failure_preserves_cache (env : ScanEnv) (s : ServiceState)
    (req : SurfaceDetectionRequest)
    (ha : req.action = SurfaceDetectionAction.SCAN_AND_FIND_ONLY ∨
          req.action = SurfaceDetectionAction.SCAN_FIND_AND_RETURN ∨
          req.action = SurfaceDetectionAction.FIND_ONLY ∨
          req.action = SurfaceDetectionAction.FIND_AND_RETURN)
    (hscan : req.action = SurfaceDetectionAction.SCAN_AND_FIND_ONLY ∨
          req.action = SurfaceDetectionAction.SCAN_FIND_AND_RETURN →
          0 < env.scans_completed)
    (hf : env.detection.find_succeeds = false) :
    (surface_detection_server_callback env s req).state.region_cloud_msg = ⟨[]⟩ ∧
    (surface_detection_server_callback env s req).state.latest_surface_detection_results
      = s.latest_surface_detection_results ∧
    (surface_detection_server_callback env s req).response.surfaces_found = false := by
  obtain ⟨a, u, rs, sd⟩ := req
  rcases ha with h | h | h | h <;> simp only at h hscan <;> subst h <;>
    [skip; skip;
      (cases u <;> simp [surface_detection_server_callback, find_surfaces, hf]);
      (cases u <;> simp [surface_detection_server_callback, find_surfaces, hf])] <;>
    · have h1 : 0 < env.scans_completed := hscan (by simp)
      cases u <;>
        simp [surface_detection_server_callback, run_robot_scan, find_surfaces, hf, h1]

/-- Concrete instance of C3: FIND_AND_RETURN with a failing detection. -/
theorem C3_find_failure_preserves_cache_witness :
    sampleScanFindFail.detection.find_succeeds = false ∧
    ((surface_detection_server_callback sampleScanFindFail sampleState
          reqFindReturn).state.region_cloud_msg = ⟨[]⟩ ∧
      (surface_detection_server_callback sampleScanFindFail sampleState
            reqFindReturn).state.latest_surface_detection_results
        = sampleState.latest_surface_detection_results ∧
      (surface_detection_server_callback sampleScanFindFail sampleState
            reqFindReturn).response.surfaces_found = false) :=
  ⟨rfl,
    C3_find_failure_preserves_cache sampleScanFindFail sampleState reqFindReturn
      (Or.inr (Or.inr (Or.inr rfl))) (by intro h; simp [reqFindReturn] at h) rfl⟩

/-- Folding `add_surface` over a mesh list appends exactly those meshes to the
server's surface set. -/
theorem foldl_add_surface_meshes (ms : List Mesh) (srv : InteractiveSurfaceServer) :
    ((ms.foldl (fun a m => a.add_surface m) srv).surfaces.map SurfaceEntry.mesh)
      = srv.surfaces.map SurfaceEntry.mesh ++ ms := by
  induction ms generalizing srv with
  | nil => simp
  | cons m ms ih =>
      rw [List.foldl_cons, ih]
      simp [InteractiveSurfaceServer.add_surface]

/-- Claim C4: whenever an action invokes `find_surfaces` and detection
succeeds, the SelectionStage ends holding exactly the newly found meshes (all
prior surfaces removed), the cached result is overwritten with the detection
parameters used, surfaces_found = true, the produced markers and the latest
scan poses, and the region-cloud snapshot becomes the detection's
region-colored cloud. -/
theorem C4_find_success_updates_cache (env : ScanEnv) (s : ServiceState)
    (req : SurfaceDetectionRequest)
    (ha : req.action = SurfaceDetectionAction.SCAN_AND_FIND_ONLY ∨
          req.action = SurfaceDetectionAction.SCAN_FIND_AND_RETURN ∨
          req.action = SurfaceDetectionAction.FIND_ONLY ∨
          req.action = SurfaceDetectionAction.FIND_AND_RETURN)
    (hscan : req.action = SurfaceDetectionAction.SCAN_AND_FIND_ONLY ∨
          req.action = SurfaceDetectionAction.SCAN_FIND_AND_RETURN →
          0 < env.scans_completed)
    (hf : env.detection.find_succeeds = true) :
    ((surface_detection_server_callback env s req).state.surface_server.surfaces.map
        SurfaceEntry.mesh = env.detection.meshes) ∧
    (surface_detection_server_callback env s req).state.latest_surface_detection_results
      = { s.latest_surface_detection_results with
          surface_detection :=
            (if req.use_default_parameters then s.default_surf_detection_params
             else req.surface_detection)
          surfaces_found := true
          surfaces := ⟨env.detection.markers⟩
          robot_scan_poses := env.detection.scan_poses } ∧
    (surface_detection_server_callback env s req).state.region_cloud_msg
      = env.detection.region_cloud := by
  obtain ⟨a, u, rs, sd⟩ := req
  rcases ha with h | h | h | h <;> simp only at h hscan <;> subst h <;>
    [skip; skip;
      (cases u <;>
        simp [surface_detection_server_callback, find_surfaces, hf,
          foldl_add_surface_meshes, InteractiveSurfaceServer.remove_all_surfaces]);
      (cases u <;>
        simp [surface_detection_server_callback, find_surfaces, hf,
          foldl_add_surface_meshes, InteractiveSurfaceServer.remove_all_surfaces])] <;>
    · have h1 : 0 < env.scans_completed := hscan (by simp)
      cases u <;>
        simp [surface_detection_server_callback, run_robot_scan, find_surfaces, hf, h1,
          foldl_add_surface_meshes, InteractiveSurfaceServer.remove_all_surfaces]

/-- Concrete instance of C4: FIND_AND_RETURN with a succeeding detection. -/
theorem C4_find_success_updates_cache_witness :
    sampleScanOk.detection.find_succeeds = true ∧
    (((surface_detection_server_callback sampleScanOk sampleState
          reqFindReturn).state.surface_server.surfaces.map SurfaceEntry.mesh
        = sampleScanOk.detection.meshes) ∧
      (surface_detection_server_callback sampleScanOk sampleState
            reqFindReturn).state.latest_surface_detection_results
        = { sampleState.latest_surface_detection_results with
            surface_detection :=
              (if reqFindReturn.use_default_parameters then
                sampleState.default_surf_detection_params
               else reqFindReturn.surface_detection)
            surfaces_found := true
            surfaces := ⟨sampleScanOk.detection.markers⟩
            robot_scan_poses := sampleScanOk.detection.scan_poses } ∧
      (surface_detection_server_callback sampleScanOk sampleState
            reqFindReturn).state.region_cloud_msg = sampleScanOk.detection.region_cloud) :=
  ⟨rfl,
    C4_find_success_updates_cache sampleScanOk sampleState reqFindReturn
      (Or.inr (Or.inr (Or.inr rfl))) (by intro h; simp [reqFindReturn] at h) rfl⟩

/-- If a handled request's trace shows no `find_surfaces` invocation, or the
detection outcome for it is a failure, the cached result is unchanged: the
cache is written only inside the success branch of `find_surfaces`. -/
theorem cache_unchanged_of_no_successful_find (env : ScanEnv) (s : ServiceState)
    (req : SurfaceDetectionRequest)
    (h : env.detection.find_succeeds = false ∨
      Event.findSurfaces ∉ (surface_detection_server_callback env s req).events) :
    (surface_detection_server_callback env s req).state.latest_surface_detection_results
      = s.latest_surface_detection_results := by
  obtain ⟨a, u, rs, sd⟩ := req
  rcases h with h | h
  · cases a <;> cases u <;>
      simp [surface_detection_server_callback, run_robot_scan, find_surfaces, h] <;>
      split_ifs <;> simp
  · cases a <;> cases u <;>
      simp [surface_detection_server_callback, run_robot_scan, find_surfaces] at h ⊢ <;>
      split_ifs at h ⊢ <;> simp_all

/-- Claim C5: RETURN_LATEST_RESULTS returns the cached result verbatim,
mutates no state, and is idempotent — a repeated call returns the same
response, including across an intervening handled request during which no
successful `find_surfaces` ran. -/
theorem C5_return_latest_idempotent (env : ScanEnv) (s : ServiceState)
    (req : SurfaceDetectionRequest)
    (ha : req.action = SurfaceDetectionAction.RETURN_LATEST_RESULTS) :
    (surface_detection_server_callback env s req).state = s ∧
    (surface_detection_server_callback env s req).response
      = s.latest_surface_detection_results ∧
    (∀ env2 req2 env3,
      (env2.detection.find_succeeds = false ∨
        Event.findSurfaces ∉ (surface_detection_server_callback env2 s req2).events) →
      (surface_detection_server_callback env3
          (surface_detection_server_callback env2 s req2).state req).response
        = (surface_detection_server_callback env s req).response) := by
  obtain ⟨a, u, rs, sd⟩ := req
  simp only at ha
  subst ha
  refine ⟨rfl, rfl, ?_⟩
  intro env2 req2 env3 h
  exact cache_unchanged_of_no_successful_find env2 s req2 h

/-- Concrete instance of C5: two RETURN_LATEST_RESULTS calls around an
intervening FIND_AND_RETURN whose detection fails. -/
theorem C5_return_latest_idempotent_witness :
    reqReturnLatest.action = SurfaceDetectionAction.RETURN_LATEST_RESULTS ∧
    sampleScanFindFail.detection.find_succeeds = false ∧
    (surface_detection_server_callback sampleScanOk sampleState reqReturnLatest).state
      = sampleState ∧
    (surface_detection_server_callback sampleScanOk sampleState reqReturnLatest).response
      = sampleState.latest_surface_detection_results ∧
    (surface_detection_server_callback sampleScanZero
        (surface_detection_server_callback sampleScanFindFail sampleState
            reqFindReturn).state reqReturnLatest).response
      = (surface_detection_server_callback sampleScanOk sampleState reqReturnLatest).response :=
  ⟨rfl, rfl,
    (C5_return_latest_idempotent sampleScanOk sampleState reqReturnLatest rfl).1,
    (C5_return_latest_idempotent sampleScanOk sampleState reqReturnLatest rfl).2.1,
    (C5_return_latest_idempotent sampleScanOk sampleState reqReturnLatest rfl).2.2
      sampleScanFindFail reqFindReturn sampleScanZero (Or.inl rfl)⟩

/-- Claim C6: the two ONLY actions always answer with an empty surfaces
payload, while the two RETURN actions answer with the full marker list the
detection produced (empty exactly when no surfaces were found). -/
theorem C6_payload_per_action (env : ScanEnv) (s : ServiceState)
    (req : SurfaceDetectionRequest) :
    ((req.action = SurfaceDetectionAction.SCAN_AND_FIND_ONLY ∨
        req.action = SurfaceDetectionAction.FIND_ONLY) →
      (surface_detection_server_callback env s req).response.surfaces.markers = []) ∧
    ((req.action = SurfaceDetectionAction.SCAN_FIND_AND_RETURN ∨
        req.action = SurfaceDetectionAction.FIND_AND_RETURN) →
      (surface_detection_server_callback env s req).response.surfaces.markers
        = (if (surface_detection_server_callback env s req).response.surfaces_found then
            env.detection.markers
          else [])) := by
  obtain ⟨a, u, rs, sd⟩ := req
  cases a <;> cases u <;>
    simp [surface_detection_server_callback, run_robot_scan, find_surfaces] <;>
    split_ifs <;> simp_all

/-- Concrete instance of C6: FIND_ONLY clears the payload, FIND_AND_RETURN
carries the detected markers. -/
theorem C6_payload_per_action_witness :
    (surface_detection_server_callback sampleScanOk sampleState
        reqFindOnly).response.surfaces.markers = [] ∧
    (surface_detection_server_callback sampleScanOk sampleState
        reqFindReturn).response.surfaces.markers
      = (if (surface_detection_server_callback sampleScanOk sampleState
              reqFindReturn).response.surfaces_found then
          sampleScanOk.detection.markers
        else []) :=
  ⟨(C6_payload_per_action sampleScanOk sampleState reqFindOnly).1 (Or.inr rfl),
    (C6_payload_per_action sampleScanOk sampleState reqFindReturn).2 (Or.inr rfl)⟩

/-- A terminating `select_surface_server_callback` call changes nothing but
the SelectionStage state; in particular every default group is untouched. -/
theorem select_callback_preserves_defaults (fuel : Nat) (s : ServiceState)
    (req : SelectSurfaceRequest) (s' : ServiceState) (b : Bool)
    (h : select_surface_server_callback fuel s req = some (s', b)) :
    s'.default_robot_scan_params = s.default_robot_scan_params ∧
    s'.default_surf_detection_params = s.default_surf_detection_params ∧
    s'.default_blending_plan_params = s.default_blending_plan_params := by
  obtain ⟨a, ts⟩ := req
  cases a <;> simp only [select_surface_server_callback] at h
  case SELECT =>
    cases hx : select_flag_loop true ts fuel 0 s.surface_server with
    | none => rw [hx] at h; simp at h
    | some srv =>
        rw [hx] at h
        simp only [Option.map_some', Option.some.injEq, Prod.mk.injEq] at h
        obtain ⟨h1, -⟩ := h
        subst h1
        exact ⟨rfl, rfl, rfl⟩
  case DESELECT =>
    cases hx : select_flag_loop false ts fuel 0 s.surface_server with
    | none => rw [hx] at h; simp at h
    | some srv =>
        rw [hx] at h
        simp only [Option.map_some', Option.some.injEq, Prod.mk.injEq] at h
        obtain ⟨h1, -⟩ := h
        subst h1
        exact ⟨rfl, rfl, rfl⟩
  all_goals
    simp only [Option.some.injEq, Prod.mk.injEq] at h
  all_goals
    obtain ⟨h1, -⟩ := h
  all_goals
    subst h1
  all_goals
    exact ⟨rfl, rfl, rfl⟩

/-- One handled service call, of any of the three services, never writes any
default parameter group. -/
theorem stepCall_preserves_defaults (c : ServiceCall) (s s' : ServiceState)
    (h : stepCall c s = some s') :
    s'.default_robot_scan_params = s.default_robot_scan_params ∧
    s'.default_surf_detection_params = s.default_surf_detection_params ∧
    s'.default_blending_plan_params = s.default_blending_plan_params := by
  cases c with
  | detect env req =>
      simp only [stepCall, Option.some.injEq] at h
      subst h
      obtain ⟨a, u, rs, sd⟩ := req
      cases a <;> cases u <;>
        simp [surface_detection_server_callback, run_robot_scan, find_surfaces] <;>
        split_ifs <;> simp
  | blend action =>
      cases action <;> simp only [stepCall, surface_blend_parameters_server_callback,
        Option.some.injEq] at h <;> subst h <;> exact ⟨rfl, rfl, rfl⟩
  | select fuel req =>
      simp only [stepCall] at h
      cases hx : select_surface_server_callback fuel s req with
      | none => rw [hx] at h; simp at h
      | some p =>
          rw [hx] at h
          simp only [Option.map_some', Option.some.injEq] at h
          subst h
          exact select_callback_preserves_defaults fuel s req p.1 p.2 (by rw [hx])

/-- No sequence of handled service calls writes any default parameter group. -/
theorem runCalls_preserves_defaults (cs : List ServiceCall) (s s' : ServiceState)
    (h : runCalls cs s = some s') :
    s'.default_robot_scan_params = s.default_robot_scan_params ∧
    s'.default_surf_detection_params = s.default_surf_detection_params ∧
    s'.default_blending_plan_params = s.default_blending_plan_params := by
  induction cs generalizing s with
  | nil =>
      simp only [runCalls, Option.some.injEq] at h
      subst h
      exact ⟨rfl, rfl, rfl⟩
  | cons c cs ih =>
      simp only [runCalls] at h
      cases hx : stepCall c s with
      | none => rw [hx] at h; simp at h
      | some s1 =>
          rw [hx] at h
          simp only [Option.some_bind] at h
          obtain ⟨d1, d2, d3⟩ := stepCall_preserves_defaults c s s1 hx
          obtain ⟨e1, e2, e3⟩ := ih s1 h
          exact ⟨e1.trans d1, e2.trans d2, e3.trans d3⟩

/-- Claim C7: the three default parameter groups are assigned exactly once, by
`init`; after any sequence of handled requests across the three services,
they still hold the values snapshotted at startup, and a GET_DEFAULT query
returns exactly those startup values. -/
theorem C7_defaults_immutable (ls : RobotScanParameters)
    (ld : SurfaceDetectionParameters) (lb : BlendingPlanParameters)
    (cs : List ServiceCall) (s' : ServiceState)
    (h : runCalls cs (init_state ls ld lb) = some s') :
    s'.default_robot_scan_params = ls ∧
    s'.default_surf_detection_params = ld ∧
    s'.default_blending_plan_params = lb ∧
    (surface_blend_parameters_server_callback s'
        SurfaceBlendingParametersAction.GET_DEFAULT_PARAMETERS).2.1
      = { surface_detection := ld, robot_scan := ls, blending_plan := lb } := by
  obtain ⟨d1, d2, d3⟩ := runCalls_preserves_defaults cs _ s' h
  simp only [init_state] at d1 d2 d3
  refine ⟨d1, d2, d3, ?_⟩
  simp [surface_blend_parameters_server_callback,
    SurfaceBlendingParametersResponse.init, d1, d2, d3]

/-- A concrete call sequence exercising all three service callbacks: a full
scan-and-find, a terminating selection call, a parameter query and a failed
find. -/
def demoCalls : List ServiceCall :=
  [ServiceCall.detect sampleScanOk reqScanFindReturn,
    ServiceCall.select 3 ⟨SelectSurfaceAction.SELECT, []⟩,
    ServiceCall.blend SurfaceBlendingParametersAction.GET_DEFAULT_PARAMETERS,
    ServiceCall.detect sampleScanFindFail reqFindOnly]

/-- The state `demoCalls` reaches from the sample startup state. -/
def demoFinal : ServiceState :=
  (runCalls demoCalls (init_state ⟨1⟩ ⟨2⟩ bp1)).getD (init_state ⟨1⟩ ⟨2⟩ bp1)

/-- Concrete instance of C7: after the demo call sequence the defaults still
hold the startup values. -/
theorem C7_defaults_immutable_witness :
    runCalls demoCalls (init_state ⟨1⟩ ⟨2⟩ bp1) = some demoFinal ∧
    demoFinal.default_robot_scan_params = ⟨1⟩ ∧
    demoFinal.default_surf_detection_params = ⟨2⟩ ∧
    demoFinal.default_blending_plan_params = bp1 :=
  ⟨by decide,
    (C7_defaults_immutable ⟨1⟩ ⟨2⟩ bp1 demoCalls demoFinal (by decide)).1,
    (C7_defaults_immutable ⟨1⟩ ⟨2⟩ bp1 demoCalls demoFinal (by decide)).2.1,
    (C7_defaults_immutable ⟨1⟩ ⟨2⟩ bp1 demoCalls demoFinal (by decide)).2.2.1⟩

/-- The SELECT/DESELECT loop never reaches its exit condition on a non-empty
target list: the condition is the list size, which no iteration changes. -/
theorem select_flag_loop_nonempty_none (flag : Bool) (targets : List Nat)
    (hne : targets ≠ []) :
    ∀ fuel i srv, select_flag_loop flag targets fuel i srv = none := by
  have hc : targets.length ≠ 0 := fun h0 => hne (List.length_eq_zero.mp h0)
  intro fuel
  induction fuel with
  | zero => intro i srv; rfl
  | succ n ih =>
      intro i srv
      rw [select_flag_loop, if_pos hc]
      exact ih _ _

/-- Claim C8 (the code contradicts it): a SELECT or DESELECT request with a
non-empty target list never returns — for every iteration bound, the handler
is still inside the loop, because the loop condition
`req.select_surfaces.size()` never becomes false and never mentions the loop
counter. -/
theorem C8_select_nonempty_never_returns (fuel : Nat) (s : ServiceState)
    (req : SelectSurfaceRequest)
    (ha : req.action = SelectSurfaceAction.SELECT ∨
          req.action = SelectSurfaceAction.DESELECT)
    (hne : req.select_surfaces ≠ []) :
    select_surface_server_callback fuel s req = none := by
  obtain ⟨a, ts⟩ := req
  simp only at hne
  rcases ha with h | h <;> simp only at h <;> subst h <;>
    simp [select_surface_server_callback, select_flag_loop_nonempty_none _ ts hne]

/-- Concrete instance of C8: a SELECT of one surface id never returns even
within a large iteration bound. -/
theorem C8_select_nonempty_never_returns_witness :
    ((⟨SelectSurfaceAction.SELECT, [0]⟩ : SelectSurfaceRequest).select_surfaces ≠ []) ∧
    select_surface_server_callback 1000 sampleState ⟨SelectSurfaceAction.SELECT, [0]⟩
      = none :=
  ⟨by decide,
    C8_select_nonempty_never_returns 1000 sampleState ⟨SelectSurfaceAction.SELECT, [0]⟩
      (Or.inl rfl) (by decide)⟩

/-- Claim C10: after SCAN_AND_FIND_ONLY or FIND_ONLY with a successful
detection, the cache keeps the complete marker list — the cache copy is taken
before the response payload is cleared — so the action's own response is
empty while a subsequent RETURN_LATEST_RESULTS returns the full markers. -/
theorem C10_cache_keeps_markers_after_only_actions (env env2 : ScanEnv)
    (s : ServiceState) (req req2 : SurfaceDetectionRequest)
    (ha : req.action = SurfaceDetectionAction.SCAN_AND_FIND_ONLY ∨
          req.action = SurfaceDetectionAction.FIND_ONLY)
    (hscan : req.action = SurfaceDetectionAction.SCAN_AND_FIND_ONLY →
          0 < env.scans_completed)
    (hf : env.detection.find_succeeds = true)
    (ha2 : req2.action = SurfaceDetectionAction.RETURN_LATEST_RESULTS) :
    (surface_detection_server_callback env s req).response.surfaces.markers = [] ∧
    (surface_detection_server_callback env s
          req).state.latest_surface_detection_results.surfaces.markers
      = env.detection.markers ∧
    (surface_detection_server_callback env2
          (surface_detection_server_callback env s req).state
          req2).response.surfaces.markers
      = env.detection.markers := by
  obtain ⟨a, u, rs, sd⟩ := req
  obtain ⟨a2, u2, rs2, sd2⟩ := req2
  simp only at ha2
  subst ha2
  rcases ha with h | h <;> simp only at h hscan <;> subst h
  · have h1 : 0 < env.scans_completed := hscan rfl
    cases u <;>
      simp [surface_detection_server_callback, run_robot_scan, find_surfaces, hf, h1]
  · cases u <;>
      simp [surface_detection_server_callback, find_surfaces, hf]

/-- Concrete instance of C10: FIND_ONLY with a succeeding detection, then
RETURN_LATEST_RESULTS. -/
theorem C10_cache_keeps_markers_after_only_actions_witness :
    sampleScanOk.detection.find_succeeds = true ∧
    ((surface_detection_server_callback sampleScanOk sampleState
          reqFindOnly).response.surfaces.markers = [] ∧
      (surface_detection_server_callback sampleScanOk sampleState
            reqFindOnly).state.latest_surface_detection_results.surfaces.markers
        = sampleScanOk.detection.markers ∧
      (surface_detection_server_callback sampleScanZero
            (surface_detection_server_callback sampleScanOk sampleState
              reqFindOnly).state reqReturnLatest).response.surfaces.markers
        = sampleScanOk.detection.markers) :=
  ⟨rfl,
    C10_cache_keeps_markers_after_only_actions sampleScanOk sampleScanZero sampleState
      reqFindOnly reqReturnLatest (Or.inr rfl)
      (by intro h; simp [reqFindOnly] at h) rfl rfl⟩

end Godel
